import Mathlib

/-!
Verification of the sample time-server application
(`sample-project/app/main.py`, a Flask app).

The source program (after its two module header lines pulling in Flask
and the datetime module) is:

  app = Flask(__name__)
  @app.route('/')
  def get_time():
      return str(datetime.datetime.now())
  if __name__ == '__main__':
      app.run(host='0.0.0.0', port=8080)

The shallow embedding below models the handler, CPython's
`str(datetime.datetime.now())` rendering (ISO format with a space
separator, where the `.ffffff` fractional field is emitted only when the
microsecond component is nonzero), and the Flask dispatch defaults that
the program relies on: routes declared with `@app.route('/')` accept GET
plus the automatically added HEAD and OPTIONS; unknown paths get 404;
disallowed methods get 405; unhandled exceptions in a handler get 500;
a handler returning a bare string gets the default Content-Type
`text/html; charset=utf-8`.
-/

/-- A naive (timezone-free) datetime value, as produced by
`datetime.datetime.now()`: local wall-clock fields, no `tzinfo`. -/
structure Datetime where
  year : Nat
  month : Nat
  day : Nat
  hour : Nat
  minute : Nat
  second : Nat
  microsecond : Nat
deriving DecidableEq, Repr

/-- Field bounds maintained by Python's `datetime` constructor:
`MINYEAR = 1`, `MAXYEAR = 9999`, months 1..12, days 1..31,
hours 0..23, minutes and seconds 0..59, microseconds 0..999999. -/
def Datetime.Valid (dt : Datetime) : Prop :=
  1 ≤ dt.year ∧ dt.year ≤ 9999 ∧ 1 ≤ dt.month ∧ dt.month ≤ 12 ∧
    1 ≤ dt.day ∧ dt.day ≤ 31 ∧ dt.hour ≤ 23 ∧ dt.minute ≤ 59 ∧
    dt.second ≤ 59 ∧ dt.microsecond ≤ 999999

instance (dt : Datetime) : Decidable dt.Valid := by
  unfold Datetime.Valid
  infer_instance

/-- Python's ordering on datetimes: lexicographic on the field tuple. -/
def Datetime.lt (a b : Datetime) : Prop :=
  a.year < b.year ∨ (a.year = b.year ∧ (a.month < b.month ∨ (a.month = b.month ∧
    (a.day < b.day ∨ (a.day = b.day ∧ (a.hour < b.hour ∨ (a.hour = b.hour ∧
    (a.minute < b.minute ∨ (a.minute = b.minute ∧ (a.second < b.second ∨
    (a.second = b.second ∧ a.microsecond < b.microsecond)))))))))))

instance (a b : Datetime) : Decidable (Datetime.lt a b) := by
  unfold Datetime.lt
  infer_instance

def Datetime.le (a b : Datetime) : Prop :=
  Datetime.lt a b ∨ a = b

instance (a b : Datetime) : Decidable (Datetime.le a b) := by
  unfold Datetime.le
  infer_instance

/-- The ASCII character for a decimal digit, `chr(48 + d)`. -/
def digitChar (d : Nat) : Char :=
  Char.ofNat (48 + d)

/-- `n` rendered zero-padded to exactly `w` decimal digits, as C's
`%0wd` does for `n < 10 ^ w` (the padding used by `datetime.__str__`
for every field: `%04d` year, `%02d` the other fields, `%06d`
microseconds). -/
def digitsPad : Nat → Nat → List Char
  | 0, _ => []
  | w + 1, n => digitChar (n / 10 ^ w) :: digitsPad w (n % 10 ^ w)

/-- The `YYYY-MM-DD HH:MM:SS` part of `str(dt)`. -/
def Datetime.baseChars (dt : Datetime) : List Char :=
  digitsPad 4 dt.year ++ ('-' :: (digitsPad 2 dt.month ++ ('-' :: (digitsPad 2 dt.day ++
    (' ' :: (digitsPad 2 dt.hour ++ (':' :: (digitsPad 2 dt.minute ++
    (':' :: digitsPad 2 dt.second)))))))))

/-- The fractional-second part of `str(dt)`: CPython's
`datetime.isoformat` appends `.%06d` only when `microsecond` is
nonzero. -/
def Datetime.fracChars (dt : Datetime) : List Char :=
  if dt.microsecond = 0 then [] else '.' :: digitsPad 6 dt.microsecond

def Datetime.strChars (dt : Datetime) : List Char :=
  dt.baseChars ++ dt.fracChars

/-- `str(dt)` for a naive datetime: `dt.isoformat(sep=' ')`. -/
def Datetime.str (dt : Datetime) : String :=
  String.mk dt.strChars

/-- The handler `get_time`: `return str(datetime.datetime.now())`.
The current local clock reading is its only input; the request is not
consulted. -/
def get_time (now : Datetime) : String :=
  Datetime.str now

/-- The handler when the clock read may fail: the body performs no
error handling of its own, so a failure of `datetime.datetime.now()`
propagates out unchanged. -/
def get_timeE (now? : Except String Datetime) : Except String String :=
  Except.map get_time now?

inductive Method where
  | GET
  | HEAD
  | OPTIONS
  | POST
  | PUT
  | DELETE
  | PATCH
deriving DecidableEq, Repr

structure Request where
  method : Method
  path : String
  query : List (String × String)
  body : String
deriving DecidableEq, Repr

structure Response where
  status : Nat
  contentType : String
  body : String
deriving DecidableEq, Repr

/-- Flask's default Content-Type for a handler returning a bare `str`. -/
def flaskDefaultContentType : String :=
  "text/html; charset=utf-8"

/-- The methods served for the single rule `@app.route('/')`: Flask
assumes GET when no `methods` argument is given, and adds HEAD and
OPTIONS automatically. -/
def routeMethods : List Method :=
  [Method.GET, Method.HEAD, Method.OPTIONS]

/-- Flask dispatch for the application, with a possibly failing clock:
the only rule is `'/'`; other paths get the default 404; disallowed
methods on `/` get the default 405; HEAD runs the handler but the body
is stripped; OPTIONS is answered by the framework; an exception escaping
the handler becomes the default 500 page. -/
def handleRequestE (now? : Except String Datetime) (req : Request) : Response :=
  if req.path = "/" then
    match req.method with
    | Method.GET =>
      match get_timeE now? with
      | Except.ok s => { status := 200, contentType := flaskDefaultContentType, body := s }
      | Except.error _ => { status := 500, contentType := flaskDefaultContentType, body := "" }
    | Method.HEAD =>
      match get_timeE now? with
      | Except.ok _ => { status := 200, contentType := flaskDefaultContentType, body := "" }
      | Except.error _ => { status := 500, contentType := flaskDefaultContentType, body := "" }
    | Method.OPTIONS => { status := 200, contentType := flaskDefaultContentType, body := "" }
    | _ => { status := 405, contentType := flaskDefaultContentType, body := "" }
  else { status := 404, contentType := flaskDefaultContentType, body := "" }

/-- Dispatch under a successful clock read. -/
def handleRequest (now : Datetime) (req : Request) : Response :=
  handleRequestE (Except.ok now) req

/-- The bind configuration chosen by the `__main__` block:
`app.run(host='0.0.0.0', port=8080)` with both values literal. The
program reads no command-line arguments and no environment variables,
so the configuration is a constant function of both. -/
structure BindConfig where
  host : String
  port : Nat
deriving DecidableEq, Repr

def mainBindConfig (_argv : List String) (_env : List (String × String)) : BindConfig :=
  { host := "0.0.0.0", port := 8080 }

/-! ### Properties of the digit rendering -/

theorem digitsPad_length (w n : Nat) : (digitsPad w n).length = w := by
  induction w generalizing n with
  | zero => rfl
  | succ w ih => simp [digitsPad, ih]

theorem digitChar_lt_digitChar :
    ∀ a, a < 10 → ∀ b, b < 10 → a < b → digitChar a < digitChar b := by
  decide

theorem digitChar_ne_special :
    ∀ d, d < 10 → digitChar d ≠ '.' ∧ digitChar d ≠ '+' ∧ digitChar d ≠ 'Z' ∧
      digitChar d ≠ 'U' ∧ digitChar d ≠ 'T' ∧ digitChar d ≠ 'C' := by
  decide

theorem mem_digitsPad : ∀ {w n : Nat} {c : Char}, n < 10 ^ w → c ∈ digitsPad w n →
    ∃ d, d < 10 ∧ c = digitChar d := by
  intro w
  induction w with
  | zero =>
    intro n c _ hc
    simp [digitsPad] at hc
  | succ w ih =>
    intro n c hn hc
    rw [digitsPad] at hc
    rcases List.mem_cons.mp hc with rfl | hc
    · refine ⟨n / 10 ^ w, ?_, rfl⟩
      exact Nat.div_lt_of_lt_mul (by rw [← pow_succ]; exact hn)
    · exact ih (Nat.mod_lt _ (pow_pos (by norm_num) w)) hc

theorem digitsPad_lt : ∀ {w a b : Nat}, b < 10 ^ w → a < b →
    List.Lex (· < ·) (digitsPad w a) (digitsPad w b) := by
  intro w
  induction w with
  | zero =>
    intro a b hb hab
    exact absurd hab (by omega)
  | succ w ih =>
    intro a b hb hab
    have hpos : 0 < 10 ^ w := pow_pos (by norm_num) w
    have hble : a / 10 ^ w ≤ b / 10 ^ w := Nat.div_le_div_right (Nat.le_of_lt hab)
    have hb10 : b / 10 ^ w < 10 := Nat.div_lt_of_lt_mul (by rw [← pow_succ]; exact hb)
    rw [digitsPad, digitsPad]
    rcases Nat.lt_or_ge (a / 10 ^ w) (b / 10 ^ w) with hq | hq
    · exact List.Lex.rel
        (digitChar_lt_digitChar _ (lt_of_le_of_lt hble hb10) _ hb10 hq)
    · have hq' : a / 10 ^ w = b / 10 ^ w := Nat.le_antisymm hble hq
      rw [hq']
      refine List.Lex.cons (ih (Nat.mod_lt _ hpos) ?_)
      have h1 := Nat.div_add_mod a (10 ^ w)
      have h2 := Nat.div_add_mod b (10 ^ w)
      rw [hq'] at h1
      omega

theorem lex_append_of_length_eq {t₁ t₂ : List Char} :
    ∀ {l₁ l₂ : List Char}, List.Lex (· < ·) l₁ l₂ → l₁.length = l₂.length →
      List.Lex (· < ·) (l₁ ++ t₁) (l₂ ++ t₂) := by
  intro l₁ l₂ h
  induction h with
  | nil =>
    intro hlen
    exact absurd hlen (by simp)
  | cons h ih =>
    intro hlen
    exact List.Lex.cons (ih (by simpa using hlen))
  | rel h =>
    intro _
    exact List.Lex.rel h

/-! ### Monotonicity of the rendered timestamp -/

theorem strChars_lt_of_lt : ∀ {a b : Datetime}, a.Valid → b.Valid → Datetime.lt a b →
    List.Lex (· < ·) a.strChars b.strChars := by
  intro a b ha hb hab
  obtain ⟨y₁, mo₁, d₁, h₁, mi₁, s₁, u₁⟩ := a
  obtain ⟨y₂, mo₂, d₂, h₂, mi₂, s₂, u₂⟩ := b
  unfold Datetime.Valid at ha hb
  unfold Datetime.lt at hab
  unfold Datetime.strChars Datetime.baseChars Datetime.fracChars
  dsimp only at ha hb hab ⊢
  obtain ⟨hy₁, hy₁', hmo₁, hmo₁', hd₁, hd₁', hh₁, hmi₁, hs₁, hu₁⟩ := ha
  obtain ⟨hy₂, hy₂', hmo₂, hmo₂', hd₂, hd₂', hh₂, hmi₂, hs₂, hu₂⟩ := hb
  simp only [List.append_assoc, List.cons_append]
  rcases hab with hy | ⟨rfl, hmo | ⟨rfl, hd | ⟨rfl, hh | ⟨rfl, hmi | ⟨rfl, hs | ⟨rfl, hu⟩⟩⟩⟩⟩⟩
  · exact lex_append_of_length_eq
      (digitsPad_lt (lt_of_le_of_lt hy₂' (by norm_num)) hy)
      (by rw [digitsPad_length, digitsPad_length])
  · apply List.Lex.append_left
    apply List.Lex.cons
    exact lex_append_of_length_eq
      (digitsPad_lt (lt_of_le_of_lt hmo₂' (by norm_num)) hmo)
      (by rw [digitsPad_length, digitsPad_length])
  · apply List.Lex.append_left
    apply List.Lex.cons
    apply List.Lex.append_left
    apply List.Lex.cons
    exact lex_append_of_length_eq
      (digitsPad_lt (lt_of_le_of_lt hd₂' (by norm_num)) hd)
      (by rw [digitsPad_length, digitsPad_length])
  · apply List.Lex.append_left
    apply List.Lex.cons
    apply List.Lex.append_left
    apply List.Lex.cons
    apply List.Lex.append_left
    apply List.Lex.cons
    exact lex_append_of_length_eq
      (digitsPad_lt (lt_of_le_of_lt hh₂ (by norm_num)) hh)
      (by rw [digitsPad_length, digitsPad_length])
  · apply List.Lex.append_left
    apply List.Lex.cons
    apply List.Lex.append_left
    apply List.Lex.cons
    apply List.Lex.append_left
    apply List.Lex.cons
    apply List.Lex.append_left
    apply List.Lex.cons
    exact lex_append_of_length_eq
      (digitsPad_lt (lt_of_le_of_lt hmi₂ (by norm_num)) hmi)
      (by rw [digitsPad_length, digitsPad_length])
  · apply List.Lex.append_left
    apply List.Lex.cons
    apply List.Lex.append_left
    apply List.Lex.cons
    apply List.Lex.append_left
    apply List.Lex.cons
    apply List.Lex.append_left
    apply List.Lex.cons
    apply List.Lex.append_left
    apply List.Lex.cons
    exact lex_append_of_length_eq
      (digitsPad_lt (lt_of_le_of_lt hs₂ (by norm_num)) hs)
      (by rw [digitsPad_length, digitsPad_length])
  · apply List.Lex.append_left
    apply List.Lex.cons
    apply List.Lex.append_left
    apply List.Lex.cons
    apply List.Lex.append_left
    apply List.Lex.cons
    apply List.Lex.append_left
    apply List.Lex.cons
    apply List.Lex.append_left
    apply List.Lex.cons
    apply List.Lex.append_left
    by_cases hu0 : u₁ = 0
    · rw [if_pos hu0, if_neg (by omega)]
      exact List.Lex.nil
    · rw [if_neg hu0, if_neg (by omega)]
      exact List.Lex.cons (digitsPad_lt (lt_of_le_of_lt hu₂ (by norm_num)) hu)

theorem str_lt_of_lt {a b : Datetime} (ha : a.Valid) (hb : b.Valid)
    (h : Datetime.lt a b) : Datetime.str a < Datetime.str b := by
  rw [String.lt_iff_toList_lt]
  exact strChars_lt_of_lt ha hb h

theorem str_le_of_le {a b : Datetime} (ha : a.Valid) (hb : b.Valid)
    (h : Datetime.le a b) : Datetime.str a ≤ Datetime.str b := by
  rcases h with h | rfl
  · exact le_of_lt (str_lt_of_lt ha hb h)
  · exact le_refl _

/-! ### Shape of the rendered timestamp -/

theorem mem_baseChars {dt : Datetime} (h : dt.Valid) {c : Char} (hc : c ∈ dt.baseChars) :
    (∃ d, d < 10 ∧ c = digitChar d) ∨ c = '-' ∨ c = ' ' ∨ c = ':' := by
  obtain ⟨y, mo, d, hr, mi, s, u⟩ := dt
  unfold Datetime.Valid at h
  unfold Datetime.baseChars at hc
  dsimp only at h hc
  obtain ⟨hy, hy', hmo, hmo', hd, hd', hhr, hmi, hs, hu⟩ := h
  simp only [List.mem_append, List.mem_cons] at hc
  rcases hc with hm | rfl | hm | rfl | hm | rfl | hm | rfl | hm | rfl | hm
  · exact Or.inl (mem_digitsPad (lt_of_le_of_lt hy' (by norm_num)) hm)
  · exact Or.inr (Or.inl rfl)
  · exact Or.inl (mem_digitsPad (lt_of_le_of_lt hmo' (by norm_num)) hm)
  · exact Or.inr (Or.inl rfl)
  · exact Or.inl (mem_digitsPad (lt_of_le_of_lt hd' (by norm_num)) hm)
  · exact Or.inr (Or.inr (Or.inl rfl))
  · exact Or.inl (mem_digitsPad (lt_of_le_of_lt hhr (by norm_num)) hm)
  · exact Or.inr (Or.inr (Or.inr rfl))
  · exact Or.inl (mem_digitsPad (lt_of_le_of_lt hmi (by norm_num)) hm)
  · exact Or.inr (Or.inr (Or.inr rfl))
  · exact Or.inl (mem_digitsPad (lt_of_le_of_lt hs (by norm_num)) hm)

theorem mem_strChars {dt : Datetime} (h : dt.Valid) {c : Char} (hc : c ∈ dt.strChars) :
    (∃ d, d < 10 ∧ c = digitChar d) ∨ c = '-' ∨ c = ' ' ∨ c = ':' ∨ c = '.' := by
  have h' := h
  unfold Datetime.Valid at h'
  have hu : dt.microsecond ≤ 999999 := h'.2.2.2.2.2.2.2.2.2
  unfold Datetime.strChars at hc
  rcases List.mem_append.mp hc with hb | hf
  · rcases mem_baseChars h hb with hd | h1 | h1 | h1
    · exact Or.inl hd
    · exact Or.inr (Or.inl h1)
    · exact Or.inr (Or.inr (Or.inl h1))
    · exact Or.inr (Or.inr (Or.inr (Or.inl h1)))
  · unfold Datetime.fracChars at hf
    by_cases hu0 : dt.microsecond = 0
    · rw [if_pos hu0] at hf
      exact absurd hf (List.not_mem_nil c)
    · rw [if_neg hu0] at hf
      rcases List.mem_cons.mp hf with rfl | hf
      · exact Or.inr (Or.inr (Or.inr (Or.inr rfl)))
      · exact Or.inl (mem_digitsPad (lt_of_le_of_lt hu (by norm_num)) hf)

theorem baseChars_length (dt : Datetime) : dt.baseChars.length = 19 := by
  unfold Datetime.baseChars
  simp [digitsPad_length]

theorem strChars_length (dt : Datetime) :
    dt.strChars.length = if dt.microsecond = 0 then 19 else 26 := by
  unfold Datetime.strChars Datetime.fracChars
  by_cases hu : dt.microsecond = 0
  · rw [if_pos hu, if_pos hu, List.append_nil, baseChars_length]
  · rw [if_neg hu, if_neg hu]
    simp [baseChars_length, digitsPad_length]

/-! ### The claims -/

/-- C1: every GET request to the root path `/` returns an HTTP 200
response whose body is the string representation of the clock value
read from the host clock at request time. -/
theorem C1_root_get_returns_timestamp (now : Datetime) (q : List (String × String)) (bd : String) :
    handleRequest now { method := Method.GET, path := "/", query := q, body := bd } =
      { status := 200, contentType := flaskDefaultContentType, body := Datetime.str now } :=
  rfl

/-- C2 counterexample: at a clock reading whose microsecond component is
0 the returned body is `2024-01-02 03:04:05`, which has no
fractional-second field, so the fractional field is not always
present. -/
theorem C2_counterexample_no_frac_at_zero_micro :
    (handleRequest ⟨2024, 1, 2, 3, 4, 5, 0⟩
        { method := Method.GET, path := "/", query := [], body := "" }).body =
      "2024-01-02 03:04:05" ∧
    '.' ∉ (handleRequest ⟨2024, 1, 2, 3, 4, 5, 0⟩
        { method := Method.GET, path := "/", query := [], body := "" }).body.toList :=
  ⟨by decide, by decide⟩

/-- C2 (amended): for every GET request to `/` the body renders the
timestamp as year-month-day hour:minute:second, with the
fractional-second field present exactly when the clock reading's
microsecond component is nonzero. -/
theorem C2_frac_field_iff_nonzero_micro {dt : Datetime} (h : dt.Valid)
    (q : List (String × String)) (bd : String) :
    '.' ∈ (handleRequest dt
        { method := Method.GET, path := "/", query := q, body := bd }).body.toList ↔
      dt.microsecond ≠ 0 := by
  have hbody : (handleRequest dt
      { method := Method.GET, path := "/", query := q, body := bd }).body.toList =
        dt.strChars := rfl
  rw [hbody]
  constructor
  · intro hc hu0
    unfold Datetime.strChars Datetime.fracChars at hc
    rw [if_pos hu0, List.append_nil] at hc
    rcases mem_baseChars h hc with ⟨d, hd, hdc⟩ | h1 | h1 | h1
    · exact (digitChar_ne_special d hd).1 hdc.symm
    all_goals exact absurd h1 (by decide)
  · intro hu0
    unfold Datetime.strChars Datetime.fracChars
    rw [if_neg hu0]
    exact List.mem_append_right _ (List.mem_cons_self _ _)

theorem C2_witness :
    Datetime.Valid ⟨2024, 1, 2, 3, 4, 5, 7⟩ ∧
    ('.' ∈ (handleRequest ⟨2024, 1, 2, 3, 4, 5, 7⟩
        { method := Method.GET, path := "/", query := [], body := "" }).body.toList ↔
      (⟨2024, 1, 2, 3, 4, 5, 7⟩ : Datetime).microsecond ≠ 0) :=
  ⟨by decide, C2_frac_field_iff_nonzero_micro (by decide) [] ""⟩

/-- C3: under a stable clock, for two sequential GET requests to `/`
whose clock readings are non-decreasing, the timestamp string returned
for the later request is lexicographically greater than or equal to the
one returned for the earlier request. -/
theorem C3_timestamps_lex_monotone {a b : Datetime} (ha : a.Valid) (hb : b.Valid)
    (hab : Datetime.le a b) (q₁ q₂ : List (String × String)) (bd₁ bd₂ : String) :
    (handleRequest a { method := Method.GET, path := "/", query := q₁, body := bd₁ }).body ≤
      (handleRequest b { method := Method.GET, path := "/", query := q₂, body := bd₂ }).body := by
  show Datetime.str a ≤ Datetime.str b
  exact str_le_of_le ha hb hab

theorem C3_witness :
    Datetime.Valid ⟨2024, 5, 6, 7, 8, 9, 0⟩ ∧ Datetime.Valid ⟨2024, 5, 6, 7, 8, 9, 1⟩ ∧
    Datetime.le ⟨2024, 5, 6, 7, 8, 9, 0⟩ ⟨2024, 5, 6, 7, 8, 9, 1⟩ ∧
    (handleRequest ⟨2024, 5, 6, 7, 8, 9, 0⟩
        { method := Method.GET, path := "/", query := [], body := "" }).body ≤
      (handleRequest ⟨2024, 5, 6, 7, 8, 9, 1⟩
        { method := Method.GET, path := "/", query := [], body := "" }).body :=
  ⟨by decide, by decide, by decide,
    C3_timestamps_lex_monotone (by decide) (by decide) (by decide) [] [] "" ""⟩

/-- C4: two GET requests to `/` handled at the same clock reading get
identical responses whatever their query parameters and bodies: the
output depends only on the clock value. -/
theorem C4_response_independent_of_request_payload (now : Datetime)
    (q₁ q₂ : List (String × String)) (bd₁ bd₂ : String) :
    handleRequest now { method := Method.GET, path := "/", query := q₁, body := bd₁ } =
      handleRequest now { method := Method.GET, path := "/", query := q₂, body := bd₂ } :=
  rfl

/-- C5 counterexample: a HEAD request to `/` — a request that does not
match GET `/` — is answered with status 200, because Flask adds HEAD
(and OPTIONS) to every GET rule automatically. -/
theorem C5_counterexample_head_returns_200 :
    (handleRequest ⟨2024, 1, 2, 3, 4, 5, 0⟩
        { method := Method.HEAD, path := "/", query := [], body := "" }).status = 200 :=
  rfl

/-- C5 (amended): requesting any path other than `/` yields the
framework-default 404, POST to `/` yields the framework-default 405,
and a 200 arises only for `/` with one of the methods GET, HEAD,
OPTIONS that the framework serves for the rule. -/
theorem C5_non_matching_requests (now : Datetime) (req : Request) :
    (req.path ≠ "/" → (handleRequest now req).status = 404) ∧
    (req.path = "/" → req.method = Method.POST → (handleRequest now req).status = 405) ∧
    ((handleRequest now req).status = 200 →
      req.path = "/" ∧ req.method ∈ routeMethods) := by
  obtain ⟨m, p, q, bd⟩ := req
  by_cases hp : p = "/"
  · subst hp
    cases m <;>
      simp [handleRequest, handleRequestE, get_timeE, get_time, Except.map, routeMethods]
  · simp [handleRequest, handleRequestE, hp]

theorem C5_witness :
    (handleRequest ⟨2024, 1, 2, 3, 4, 5, 0⟩
        { method := Method.GET, path := "/other", query := [], body := "" }).status = 404 ∧
    (handleRequest ⟨2024, 1, 2, 3, 4, 5, 0⟩
        { method := Method.POST, path := "/", query := [], body := "" }).status = 405 :=
  ⟨(C5_non_matching_requests ⟨2024, 1, 2, 3, 4, 5, 0⟩
      { method := Method.GET, path := "/other", query := [], body := "" }).1 (by decide),
    (C5_non_matching_requests ⟨2024, 1, 2, 3, 4, 5, 0⟩
      { method := Method.POST, path := "/", query := [], body := "" }).2.1 rfl rfl⟩

/-- C6: the handler performs no error handling of its own: a failing
clock read propagates out of `get_time` unchanged, and the framework
turns it into its generic HTTP 500 server error. -/
theorem C6_clock_failure_propagates_as_500 (e : String)
    (q : List (String × String)) (bd : String) :
    get_timeE (Except.error e) = Except.error e ∧
    (handleRequestE (Except.error e)
        { method := Method.GET, path := "/", query := q, body := bd }).status = 500 :=
  ⟨rfl, rfl⟩

/-- C7: the `__main__` block binds exactly host 0.0.0.0 and port 8080;
the configuration is the same whatever the command line and environment
hold, since the program consults neither. -/
theorem C7_bind_config_fixed (argv argv' : List String)
    (env env' : List (String × String)) :
    mainBindConfig argv env = { host := "0.0.0.0", port := 8080 } ∧
    mainBindConfig argv env = mainBindConfig argv' env' :=
  ⟨rfl, rfl⟩

/-- C8: when the clock reading's microsecond component is 0 the body is
exactly the 19-character `YYYY-MM-DD HH:MM:SS` rendering with no
fractional part (no `.` occurs at all); when it is nonzero the body is
that rendering followed by `.` and exactly six digits. -/
theorem C8_body_frac_shape {dt : Datetime} (h : dt.Valid)
    (q : List (String × String)) (bd : String) :
    (dt.microsecond = 0 →
      (handleRequest dt { method := Method.GET, path := "/", query := q, body := bd }).body =
        String.mk dt.baseChars ∧ dt.baseChars.length = 19 ∧ '.' ∉ dt.baseChars) ∧
    (dt.microsecond ≠ 0 →
      (handleRequest dt { method := Method.GET, path := "/", query := q, body := bd }).body =
        String.mk (dt.baseChars ++ '.' :: digitsPad 6 dt.microsecond) ∧
      (digitsPad 6 dt.microsecond).length = 6) := by
  constructor
  · intro hu
    refine ⟨?_, baseChars_length dt, ?_⟩
    · show Datetime.str dt = _
      unfold Datetime.str Datetime.strChars Datetime.fracChars
      rw [if_pos hu, List.append_nil]
    · intro hc
      rcases mem_baseChars h hc with ⟨d, hd, hdc⟩ | h1 | h1 | h1
      · exact (digitChar_ne_special d hd).1 hdc.symm
      all_goals exact absurd h1 (by decide)
  · intro hu
    refine ⟨?_, digitsPad_length 6 _⟩
    show Datetime.str dt = _
    unfold Datetime.str Datetime.strChars Datetime.fracChars
    rw [if_neg hu]

theorem C8_witness :
    Datetime.Valid ⟨2024, 1, 2, 3, 4, 5, 0⟩ ∧
    (handleRequest ⟨2024, 1, 2, 3, 4, 5, 0⟩
        { method := Method.GET, path := "/", query := [], body := "" }).body =
      String.mk (Datetime.baseChars ⟨2024, 1, 2, 3, 4, 5, 0⟩) :=
  ⟨by decide, ((C8_body_frac_shape (by decide) [] "").1 rfl).1⟩

/-- C9: the handler returns a bare string, so the response carries the
framework's default Content-Type for string returns,
`text/html; charset=utf-8`, which is not `text/plain`. -/
theorem C9_default_content_type (now : Datetime) (q : List (String × String)) (bd : String) :
    (handleRequest now { method := Method.GET, path := "/", query := q, body := bd }).contentType =
      flaskDefaultContentType ∧
    flaskDefaultContentType = "text/html; charset=utf-8" ∧
    flaskDefaultContentType ≠ "text/plain" :=
  ⟨rfl, rfl, by decide⟩

/-- C10: the body is the rendering of the naive local clock reading
taken at request time — it is 19 or 26 characters long and contains no
time-zone designator (no `+` and no `Z` occurs in it). -/
theorem C10_naive_local_time {dt : Datetime} (h : dt.Valid)
    (q : List (String × String)) (bd : String) :
    (handleRequest dt { method := Method.GET, path := "/", query := q, body := bd }).body =
      dt.str ∧
    '+' ∉ dt.strChars ∧ 'Z' ∉ dt.strChars ∧
    (dt.strChars.length = 19 ∨ dt.strChars.length = 26) := by
  refine ⟨rfl, ?_, ?_, ?_⟩
  · intro hc
    rcases mem_strChars h hc with ⟨d, hd, hdc⟩ | h1 | h1 | h1 | h1
    · exact (digitChar_ne_special d hd).2.1 hdc.symm
    all_goals exact absurd h1 (by decide)
  · intro hc
    rcases mem_strChars h hc with ⟨d, hd, hdc⟩ | h1 | h1 | h1 | h1
    · exact (digitChar_ne_special d hd).2.2.1 hdc.symm
    all_goals exact absurd h1 (by decide)
  · rw [strChars_length]
    by_cases hu : dt.microsecond = 0
    · rw [if_pos hu]
      exact Or.inl rfl
    · rw [if_neg hu]
      exact Or.inr rfl

theorem C10_witness :
    Datetime.Valid ⟨2024, 1, 2, 3, 4, 5, 0⟩ ∧
    ((handleRequest ⟨2024, 1, 2, 3, 4, 5, 0⟩
        { method := Method.GET, path := "/", query := [], body := "" }).body =
      Datetime.str ⟨2024, 1, 2, 3, 4, 5, 0⟩ ∧
    '+' ∉ Datetime.strChars ⟨2024, 1, 2, 3, 4, 5, 0⟩ ∧
    'Z' ∉ Datetime.strChars ⟨2024, 1, 2, 3, 4, 5, 0⟩ ∧
    ((Datetime.strChars ⟨2024, 1, 2, 3, 4, 5, 0⟩).length = 19 ∨
      (Datetime.strChars ⟨2024, 1, 2, 3, 4, 5, 0⟩).length = 26)) :=
  ⟨by decide, C10_naive_local_time (by decide) [] ""⟩
